import Mathlib

/-!
Verification development for the heuristic interview engine of
`src/server/openai.ts` (rule-based question generation, answer scoring and
report aggregation).

Shallow-embedding conventions, chosen to match JavaScript semantics:

* JavaScript `Number` arithmetic on scores is exact integer arithmetic in the
  source (base 70 plus literal adjustments), modelled with `Int`; the one
  division (`sum / length` in `calculateScores`) is modelled exactly over `ℚ`.
* JavaScript `0/0` evaluates to `NaN` — it does not throw.  `Math.round(NaN)`
  and `Math.min(100, NaN)` are again `NaN`, and every comparison with `NaN`
  (`NaN >= x`, `NaN < x`) is `false`.  A possibly-`NaN` score is therefore
  modelled as `Option Int` with `none` for `NaN`, propagated by `Option.map`,
  and compared with `jsGe` / `jsLt` below.
* `String.prototype.toLowerCase` is modelled as a character-wise lower-casing
  map; `String.prototype.includes` as list-infix containment of the
  underlying character lists.
* `answer.split(/\s+/).length` (see `jsSplitWsCount`): splitting on runs of
  whitespace yields one part more than the number of maximal whitespace runs;
  in particular `"".split(/\s+/)` is `[""]` of length 1, and leading or
  trailing whitespace contributes an empty part.
* `Math.random()`-driven choices are modelled by explicit parameters: the
  randomized comparator sort in `generateQuestionsFromKeywords` by an
  arbitrary `shuffle : List String → List String` function (constrained to a
  permutation only in theorem hypotheses), random index picks by `Nat`
  parameters reduced modulo the list length, and the three fresh uniform
  draws of `calculateScores` by `ℚ` parameters.
* Each exported operation wraps its body in `try { … } catch { return fallback }`.
  With the declared input types no step of any body can throw, but to verify
  the catch clauses themselves the wrappers take a `fault : Bool` oracle:
  `fault = true` means "some step of the body threw", in which case the catch
  clause's value is returned.
-/

/-! ## JavaScript string and number primitives -/

/-- Characters matched by the regular-expression class `\s` in JavaScript. -/
def isJsSpace (c : Char) : Bool :=
  c = ' ' || c = '\t' || c = '\n' || c = '\r' || c.toNat = 0x0b || c.toNat = 0x0c ||
  c.toNat = 0xa0 || c.toNat = 0x1680 || (0x2000 ≤ c.toNat && c.toNat ≤ 0x200a) ||
  c.toNat = 0x2028 || c.toNat = 0x2029 || c.toNat = 0x202f || c.toNat = 0x205f ||
  c.toNat = 0x3000 || c.toNat = 0xfeff

/-- Number of maximal runs of whitespace characters in a character list; the
second argument records whether the previous character was whitespace. -/
def countWsRuns : List Char → Bool → Nat
  | [], _ => 0
  | c :: rest, prevWs =>
    (if isJsSpace c && !prevWs then 1 else 0) + countWsRuns rest (isJsSpace c)

/-- Length of `s.split(/\s+/)` in JavaScript: one more than the number of
maximal whitespace runs (`""` gives 1, `"a b"` gives 2, `" a b "` gives 4
because the leading and trailing runs each contribute an empty part). -/
def jsSplitWsCount (s : String) : Nat :=
  countWsRuns s.data false + 1

/-- JavaScript `s.includes(sub)`: `sub` occurs as a contiguous substring. -/
def jsIncludes (s sub : String) : Bool :=
  decide (sub.data <:+: s.data)

/-- JavaScript `s.toLowerCase()`, modelled character-wise. -/
def jsToLower (s : String) : String :=
  ⟨s.data.map Char.toLower⟩

/-- JavaScript `Math.round`: round half toward positive infinity. -/
def jsRound (q : ℚ) : Int :=
  ⌊q + 1/2⌋

/-- JavaScript `arr[Math.floor(Math.random() * arr.length)]`: the random draw
is modelled by a `Nat` parameter reduced modulo the length, which ranges over
exactly the indices the source can produce (the empty-list case is never
reached on non-empty constant template lists). -/
def pickR (l : List String) (r : Nat) : String :=
  l.getD (r % l.length) ""

/-- JavaScript `x >= b` where `x` may be `NaN` (modelled `none`): false on `NaN`. -/
def jsGe (x : Option Int) (b : Int) : Bool :=
  match x with
  | some v => decide (b ≤ v)
  | none => false

/-- JavaScript `x < b` where `x` may be `NaN` (modelled `none`): false on `NaN`. -/
def jsLt (x : Option Int) (b : Int) : Bool :=
  match x with
  | some v => decide (v < b)
  | none => false

/-- JavaScript `o || d` on an optional string: `undefined` and the empty
string are both falsy, so each yields the default. -/
def jsOrDefault (o : Option String) (d : String) : String :=
  match o with
  | some s => if s = "" then d else s
  | none => d

/-! ## Data model (the record types of `src/server/openai.ts`) -/

/-- One entry of `interviewData`: `{ question: string; answer: string; feedback?: string }`. -/
structure InterviewItem where
  question : String
  answer : String
  feedback : Option String
deriving Repr, DecidableEq

/-- One entry of `questionAnalysis`: `{ question: string; score: number; feedback: string }`. -/
structure QA where
  question : String
  score : Int
  feedback : String
deriving Repr, DecidableEq

/-- Result record of `calculateScores`; fields are `Option Int` because the
empty-input division produces `NaN` (`none`). -/
structure Scores where
  overall : Option Int
  technical : Option Int
  communication : Option Int
  problemSolving : Option Int
deriving Repr, DecidableEq

/-- Return record of `generatePerformanceReport`. -/
structure PerformanceReport where
  overallScore : Option Int
  technicalScore : Option Int
  communicationScore : Option Int
  problemSolvingScore : Option Int
  strengths : List String
  improvements : List String
  recommendations : List String
  questionAnalysis : List QA
deriving Repr, DecidableEq

/-- Return record of `generateNextQuestion`. -/
structure NextQuestion where
  question : String
  feedback : String
deriving Repr, DecidableEq

/-! ## Keyword extraction -/

/-- The fixed vocabulary `commonKeywords` of `extractKeywords`. -/
def commonKeywords : List String :=
  ["javascript", "typescript", "python", "java", "c++", "react", "angular",
   "vue", "node", "express", "django", "flask", "spring", "docker", "kubernetes",
   "aws", "azure", "gcp", "cloud", "database", "sql", "nosql", "mongodb",
   "leadership", "management", "communication", "teamwork", "problem-solving",
   "analytics", "data", "machine learning", "ai", "agile", "scrum", "devops",
   "frontend", "backend", "fullstack", "mobile", "android", "ios", "testing",
   "qa", "security", "networking", "infrastructure", "architecture", "design",
   "user experience", "ui", "ux", "product management", "project management"]

/-- `extractKeywords(description)`: vocabulary terms contained in the
description, extended by four generic terms when fewer than 3 are found. -/
def extractKeywords (description : String) : List String :=
  let foundKeywords := commonKeywords.filter (fun keyword => jsIncludes description keyword)
  if foundKeywords.length < 3 then
    foundKeywords ++ ["experience", "skills", "projects", "challenges"]
  else
    foundKeywords

/-! ## Question generation -/

/-- `getDefaultQuestions(jobTitle)`: the fixed fallback question list. -/
def getDefaultQuestions (jobTitle : String) : List String :=
  ["What interests you about this " ++ jobTitle ++ " position?",
   "What relevant experience do you have for this " ++ jobTitle ++ " role?",
   "What do you consider your strongest skills for this " ++ jobTitle ++ " position?",
   "Describe a challenging project you\x27ve worked on that\x27s relevant to this role.",
   "How do you stay updated with the latest developments in your field?",
   "Tell me about a time when you had to solve a complex problem.",
   "How do you handle working under pressure or tight deadlines?",
   "Give an example of a situation where you had to collaborate with a difficult team member.",
   "What are your career goals and how does this position help you achieve them?",
   "Do you have any questions about the role or the company?"]

/-- The five technical question templates, each parameterized by a skill. -/
def technicalQuestionTemplates : List (String → String) :=
  [fun skill => "Tell me about your experience with " ++ skill ++ ".",
   fun skill => "How have you used " ++ skill ++ " in your previous roles?",
   fun skill => "Describe a challenging project where you utilized " ++ skill ++ ".",
   fun skill => "What do you consider best practices when working with " ++ skill ++ "?",
   fun skill => "How do you stay updated with the latest developments in " ++ skill ++ "?"]

/-- The ten fixed behavioral prompts. -/
def behavioralQuestionTemplates : List String :=
  ["Describe a situation where you had to meet a tight deadline.",
   "Tell me about a time when you had to work with a difficult team member.",
   "Give an example of a project that didn\x27t go as planned and how you handled it.",
   "Describe a situation where you had to make a difficult decision.",
   "Tell me about a time when you went above and beyond for a project.",
   "How do you prioritize tasks when working on multiple projects?",
   "Describe a situation where you had to learn a new skill quickly.",
   "Tell me about a time when you received constructive criticism.",
   "How do you handle disagreements with team members?",
   "Give an example of how you\x27ve contributed to improving a process."]

/-- The five role-specific templates interpolated with the job title. -/
def roleSpecificQuestions (jobTitle : String) : List String :=
  ["What interests you about this " ++ jobTitle ++ " position?",
   "What do you think are the most important skills for a " ++ jobTitle ++ "?",
   "Where do you see the challenges in this " ++ jobTitle ++ " role?",
   "What achievements are you most proud of in your career as a " ++ jobTitle ++ "?",
   "How would you approach the first 90 days in this " ++ jobTitle ++ " position?"]

/-- `generateQuestionsFromKeywords(jobTitle, keywords, count)`.  The source's
`allQuestions.sort(() => 0.5 - Math.random())` rearranges the pool; it is
modelled by the `shuffle` parameter (theorems assume only that it permutes). -/
def generateQuestionsFromKeywords (jobTitle : String) (keywords : List String)
    (count : Nat) (shuffle : List String → List String) : List String :=
  let technicalQuestions :=
    keywords.flatMap (fun keyword => technicalQuestionTemplates.map (fun template => template keyword))
  let allQuestions := technicalQuestions ++ behavioralQuestionTemplates ++ roleSpecificQuestions jobTitle
  let shuffledQuestions := shuffle allQuestions
  shuffledQuestions.take count

/-- `generateInterviewQuestions(jobTitle, jobDescription, numQuestions)`:
try-block body lowers the description, extracts keywords and synthesizes
questions; the catch clause returns `getDefaultQuestions(jobTitle)`. -/
def generateInterviewQuestions (jobTitle jobDescription : String) (numQuestions : Nat)
    (shuffle : List String → List String) (fault : Bool) : List String :=
  if fault then
    getDefaultQuestions jobTitle
  else
    let description := jsToLower jobDescription
    let technicalKeywords := extractKeywords description
    generateQuestionsFromKeywords jobTitle technicalKeywords numQuestions shuffle

/-! ## Follow-up question and inline feedback -/

/-- Positive feedback templates of `generateFeedback` (slot `{keyword}`). -/
def positiveFeedbackTemplates : List String :=
  ["Thank you for sharing your experience with \x7bkeyword\x7d. That\x27s valuable information.",
   "Your knowledge of \x7bkeyword\x7d shows through in your answer. That\x27s great to hear.",
   "I appreciate your detailed explanation about \x7bkeyword\x7d.",
   "Your experience with \x7bkeyword\x7d seems relevant to this position."]

/-- General feedback templates of `generateFeedback`. -/
def generalFeedbackTemplates : List String :=
  ["Thank you for your answer.",
   "I appreciate your response.",
   "That\x27s helpful information.",
   "Thank you for sharing your perspective."]

/-- `generateFeedback(answer, mentionedKeywords)`; `rK`/`rT` model the two
`Math.random()` index draws.  `String.replace` replaces every occurrence, the
JavaScript `replace` only the first, but each template contains the
`{keyword}` slot exactly once so the two agree. -/
def generateFeedback (answer : String) (mentionedKeywords : List String) (rK rT : Nat) : String :=
  if 0 < mentionedKeywords.length then
    let randomKeyword := pickR mentionedKeywords rK
    let randomTemplate := pickR positiveFeedbackTemplates rT
    randomTemplate.replace "\x7bkeyword\x7d" randomKeyword
  else
    pickR generalFeedbackTemplates rK

/-- Keyword follow-up templates of `generateFollowUpQuestion` (slot `{keyword}`). -/
def followUpTemplates : List String :=
  ["Could you tell me more about your experience with \x7bkeyword\x7d?",
   "How have you applied \x7bkeyword\x7d in your previous roles?",
   "What challenges have you faced when working with \x7bkeyword\x7d?",
   "Can you give a specific example of how you\x27ve used \x7bkeyword\x7d to solve a problem?",
   "What do you consider to be the most important aspects of \x7bkeyword\x7d?"]

/-- General follow-up templates of `generateFollowUpQuestion`. -/
def generalFollowUpTemplates : List String :=
  ["Could you elaborate on your last point?",
   "How would you apply that experience to this role?",
   "What specific skills did you develop from that experience?",
   "How do you measure success in that area?",
   "What did you learn from that experience that would be valuable in this position?"]

/-- `generateFollowUpQuestion(currentQuestion, answer, previousQuestions, jobKeywords)`;
`currentQuestion` and `answer` are accepted but unread, as in the source. -/
def generateFollowUpQuestion (currentQuestion answer : String) (previousQuestions : List String)
    (jobKeywords : List String) (rK rT : Nat) : String :=
  let unusedKeywords := jobKeywords.filter (fun keyword =>
    !(previousQuestions.any (fun q => jsIncludes (jsToLower q) keyword)))
  if 0 < unusedKeywords.length then
    let randomKeyword := pickR unusedKeywords rK
    let randomTemplate := pickR followUpTemplates rT
    randomTemplate.replace "\x7bkeyword\x7d" randomKeyword
  else
    pickR generalFollowUpTemplates rK

/-- The catch-clause value of `generateNextQuestion`. -/
def nextQuestionFallback : NextQuestion :=
  { question := "Could you tell me more about your specific experience related to this role?",
    feedback := "Thank you for sharing that information. That\x27s helpful context." }

/-- Try-block body of `generateNextQuestion`. -/
def generateNextQuestionBody (jobDescription currentQuestion candidateAnswer : String)
    (previousQuestions : List String) (rFk rFt rQk rQt : Nat) : NextQuestion :=
  let jobKeywords := extractKeywords (jsToLower jobDescription)
  let answerKeywords := jobKeywords.filter (fun keyword =>
    jsIncludes (jsToLower candidateAnswer) keyword)
  let feedback := generateFeedback candidateAnswer answerKeywords rFk rFt
  let question := generateFollowUpQuestion currentQuestion candidateAnswer previousQuestions jobKeywords rQk rQt
  { question := question, feedback := feedback }

/-- `generateNextQuestion(jobDescription, currentQuestion, candidateAnswer, previousQuestions)`. -/
def generateNextQuestion (jobDescription currentQuestion candidateAnswer : String)
    (previousQuestions : List String) (rFk rFt rQk rQt : Nat) (fault : Bool) : NextQuestion :=
  if fault then
    nextQuestionFallback
  else
    generateNextQuestionBody jobDescription currentQuestion candidateAnswer previousQuestions rFk rFt rQk rQt

/-! ## Answer analysis -/

/-- Count of job keywords occurring as substrings of the (already
lower-cased) answer: `jobKeywords.filter(k => answer.includes(k)).length`. -/
def keywordMentions (jobKeywords : List String) (answer : String) : Nat :=
  (jobKeywords.filter (fun keyword => jsIncludes answer keyword)).length

/-- Body of the `interviewData.map` callback in `analyzeAnswers`: per-answer
score (base 70, keyword bracket, word-count bracket, clamp to [0,100]) and
tier feedback.  Only `item.question` and `item.answer` are read. -/
def analyzeAnswer (jobKeywords : List String) (item : InterviewItem) : QA :=
  let answer := jsToLower item.answer
  let mentions := keywordMentions jobKeywords answer
  let wordCount := jsSplitWsCount answer
  let score : Int := 70
  let score := if 3 < mentions then score + 15
    else if 1 < mentions then score + 10
    else if 0 < mentions then score + 5
    else score
  let score := if 150 < wordCount then score + 10
    else if 100 < wordCount then score + 5
    else if wordCount < 20 then score - 15
    else if wordCount < 50 then score - 5
    else score
  let score := max 0 (min 100 score)
  let feedback :=
    if 90 ≤ score then "Excellent answer with specific details and relevant skills."
    else if 80 ≤ score then "Strong answer demonstrating good knowledge and experience."
    else if 70 ≤ score then "Good answer with some relevant points, but could include more specific examples."
    else if 60 ≤ score then "Adequate answer, but lacks depth and concrete examples."
    else "Answer needs improvement - provide more details and specific examples."
  { question := item.question, score := score, feedback := feedback }

/-- `analyzeAnswers(interviewData, jobKeywords)`. -/
def analyzeAnswers (interviewData : List InterviewItem) (jobKeywords : List String) : List QA :=
  interviewData.map (analyzeAnswer jobKeywords)

/-! ## Score aggregation -/

/-- `calculateScores(questionAnalysis, jobKeywords)`:
`overall = Math.round(sum / length)` — on an empty list the JavaScript
division is `0/0 = NaN` (`none`), which `Math.round` and `Math.min`
propagate into the three category scores.  `r1 r2 r3` model the three fresh
`Math.random()` draws; `jobKeywords` is accepted but unread, as in the
source. -/
def calculateScores (questionAnalysis : List QA) (jobKeywords : List String)
    (r1 r2 r3 : ℚ) : Scores :=
  let overall : Option Int :=
    if questionAnalysis.length = 0 then none
    else some (jsRound (((questionAnalysis.foldl (fun sum item => sum + item.score) 0 : Int) : ℚ) /
      (questionAnalysis.length : ℚ)))
  { overall := overall
    technical := overall.map (fun o => min 100 (jsRound ((o : ℚ) * (r1 * (1/5) + 9/10))))
    communication := overall.map (fun o => min 100 (jsRound ((o : ℚ) * (r2 * (1/5) + 9/10))))
    problemSolving := overall.map (fun o => min 100 (jsRound ((o : ℚ) * (r3 * (1/5) + 4/5)))) }

/-! ## Strengths, improvements, recommendations -/

/-- The `while (list.length < 3) { shift a generic entry and push it }` loop
shared by `identifyStrengths`, `identifyImprovements` and
`generateRecommendations` (with its `break` when the pool is exhausted). -/
def padTo3 (acc : List String) : List String → List String
  | [] => acc
  | g :: rest => if acc.length < 3 then padTo3 (acc ++ [g]) rest else acc

/-- Generic strengths pool of `identifyStrengths`. -/
def genericStrengths : List String :=
  ["Showed enthusiasm for the role",
   "Articulated past experiences well",
   "Demonstrated a positive attitude",
   "Presented professional demeanor during the interview"]

/-- `identifyStrengths(questionAnalysis, scores)`; `NaN` category scores
(`none`) fail every `>= 75` comparison, as in JavaScript. -/
def identifyStrengths (questionAnalysis : List QA) (scores : Scores) : List String :=
  let strengths : List String := []
  let strengths := if 0 < (questionAnalysis.filter (fun item => 80 ≤ item.score)).length
    then strengths ++ ["Provided detailed and relevant answers to multiple questions"] else strengths
  let strengths := if jsGe scores.technical 75
    then strengths ++ ["Demonstrated good technical knowledge relevant to the position"] else strengths
  let strengths := if jsGe scores.communication 75
    then strengths ++ ["Communicated ideas clearly and effectively"] else strengths
  let strengths := if jsGe scores.problemSolving 75
    then strengths ++ ["Showed strong problem-solving abilities"] else strengths
  padTo3 strengths genericStrengths

/-- Generic improvements pool of `identifyImprovements`. -/
def genericImprovements : List String :=
  ["Quantify achievements with metrics when possible",
   "Research the company more thoroughly before the interview",
   "Prepare more concise responses to common questions",
   "Practice the STAR method (Situation, Task, Action, Result) for behavioral questions"]

/-- `identifyImprovements(questionAnalysis, scores)`; `NaN` category scores
(`none`) fail every `< 75` comparison, as in JavaScript. -/
def identifyImprovements (questionAnalysis : List QA) (scores : Scores) : List String :=
  let improvements : List String := []
  let improvements := if 0 < (questionAnalysis.filter (fun item => item.score ≤ 65)).length
    then improvements ++ ["Provide more detailed responses with specific examples"] else improvements
  let improvements := if jsLt scores.technical 75
    then improvements ++ ["Highlight technical skills more clearly in answers"] else improvements
  let improvements := if jsLt scores.communication 75
    then improvements ++ ["Structure answers more clearly with a beginning, middle, and conclusion"] else improvements
  let improvements := if jsLt scores.problemSolving 75
    then improvements ++ ["Include more examples of problem-solving in responses"] else improvements
  padTo3 improvements genericImprovements

/-- The fixed improvement-to-recommendation lookup table. -/
def recommendationMap : List (String × String) :=
  [("Provide more detailed responses with specific examples",
    "Practice answering questions using the STAR method to provide structured examples"),
   ("Highlight technical skills more clearly in answers",
    "Create a list of your technical skills with specific project examples for each"),
   ("Structure answers more clearly with a beginning, middle, and conclusion",
    "Record yourself answering practice questions and review for clarity and structure"),
   ("Include more examples of problem-solving in responses",
    "Prepare 5-7 stories about overcoming challenges in previous roles"),
   ("Quantify achievements with metrics when possible",
    "Review your resume and add specific numbers and percentages to your achievements"),
   ("Research the company more thoroughly before the interview",
    "Spend at least one hour researching the company\x27s products, culture, and recent news"),
   ("Prepare more concise responses to common questions",
    "Practice limiting your answers to 1-2 minutes for most questions"),
   ("Practice the STAR method for behavioral questions",
    "Work with a friend to practice behavioral interview questions using the STAR framework")]

/-- Generic recommendations pool of `generateRecommendations`. -/
def genericRecommendations : List String :=
  ["Join professional groups related to your field to expand your network",
   "Take an online course to strengthen skills in areas mentioned in the job description",
   "Prepare thoughtful questions to ask at the end of your next interview",
   "Create a portfolio that showcases your relevant projects and skills"]

/-- `generateRecommendations(improvements)`: `recommendationMap[improvement] || template` —
every mapped value is a non-empty constant, so the `||` default fires exactly
on a missed lookup. -/
def generateRecommendations (improvements : List String) : List String :=
  let recommendations := improvements.map (fun improvement =>
    match List.lookup improvement recommendationMap with
    | some r => r
    | none => "To address \"" ++ jsToLower improvement ++ "\", practice with a friend or career counselor")
  padTo3 recommendations genericRecommendations

/-! ## Performance report -/

/-- `generateFallbackReport(interviewData)`: the catch-clause report with
constant scores 70/68/75/65; per-question feedback is
`item.feedback || "Good answer that could be more detailed."`. -/
def generateFallbackReport (interviewData : List InterviewItem) : PerformanceReport :=
  { overallScore := some 70
    technicalScore := some 68
    communicationScore := some 75
    problemSolvingScore := some 65
    strengths :=
      ["Good communication skills",
       "Demonstrates technical knowledge",
       "Shows enthusiasm for the role"]
    improvements :=
      ["Could provide more specific examples",
       "More detailed technical answers needed",
       "Could structure answers more clearly"]
    recommendations :=
      ["Practice structured answering techniques",
       "Prepare more concrete examples",
       "Research company-specific information"]
    questionAnalysis := interviewData.map (fun item =>
      { question := item.question
        score := 70
        feedback := jsOrDefault item.feedback "Good answer that could be more detailed." }) }

/-- Try-block body of `generatePerformanceReport`; `jobTitle` is accepted but
unread, as in the source. -/
def generatePerformanceReportBody (jobTitle jobDescription : String)
    (interviewData : List InterviewItem) (r1 r2 r3 : ℚ) : PerformanceReport :=
  let jobKeywords := extractKeywords (jsToLower jobDescription)
  let questionAnalysis := analyzeAnswers interviewData jobKeywords
  let scores := calculateScores questionAnalysis jobKeywords r1 r2 r3
  let strengths := identifyStrengths questionAnalysis scores
  let improvements := identifyImprovements questionAnalysis scores
  let recommendations := generateRecommendations improvements
  { overallScore := scores.overall
    technicalScore := scores.technical
    communicationScore := scores.communication
    problemSolvingScore := scores.problemSolving
    strengths := strengths
    improvements := improvements
    recommendations := recommendations
    questionAnalysis := questionAnalysis }

/-- `generatePerformanceReport(jobTitle, jobDescription, interviewData)`. -/
def generatePerformanceReport (jobTitle jobDescription : String)
    (interviewData : List InterviewItem) (r1 r2 r3 : ℚ) (fault : Bool) : PerformanceReport :=
  if fault then
    generateFallbackReport interviewData
  else
    generatePerformanceReportBody jobTitle jobDescription interviewData r1 r2 r3

/-- Round-trip construction of claim C9: replace each entry\x27s feedback field
with the feedback the report computed for it. -/
def withFeedback (interviewData : List InterviewItem) (questionAnalysis : List QA) : List InterviewItem :=
  (interviewData.zip questionAnalysis).map (fun p =>
    { question := p.1.question, answer := p.1.answer, feedback := some p.2.feedback })

/-! ## Helper lemmas -/

/-- The padding loop appends, in order, exactly enough of the generic pool to
reach three entries. -/
theorem padTo3_eq (pool acc : List String) :
    padTo3 acc pool = acc ++ pool.take (3 - acc.length) := by
  induction pool generalizing acc with
  | nil => simp [padTo3]
  | cons g rest ih =>
    by_cases h : acc.length < 3
    · simp only [padTo3, if_pos h, ih]
      have h3 : 3 - acc.length = (3 - (acc ++ [g]).length) + 1 := by
        simp only [List.length_append, List.length_cons, List.length_nil]
        omega
      rw [h3, List.take_succ_cons, List.append_assoc, List.singleton_append]
    · simp only [padTo3, if_neg h]
      have h0 : 3 - acc.length = 0 := by omega
      simp [h0]

/-- Padding from a pool of at least three entries always reaches three. -/
theorem padTo3_length (acc pool : List String) (h : 3 ≤ pool.length) :
    3 ≤ (padTo3 acc pool).length := by
  rw [padTo3_eq]
  simp only [List.length_append, List.length_take]
  omega

/-- The per-answer analyzer reads only the question and answer fields. -/
theorem analyzeAnswer_ignores_feedback (ks : List String) (q a : String) (f1 f2 : Option String) :
    analyzeAnswer ks ⟨q, a, f1⟩ = analyzeAnswer ks ⟨q, a, f2⟩ := rfl

/-- Replacing each entry's feedback with the analyzer's own output does not
change the analysis. -/
theorem analyzeAnswers_roundTrip (ks : List String) (data : List InterviewItem) :
    analyzeAnswers (withFeedback data (analyzeAnswers data ks)) ks = analyzeAnswers data ks := by
  induction data with
  | nil => rfl
  | cons d rest ih =>
    obtain ⟨q, a, f⟩ := d
    simp only [analyzeAnswers, withFeedback, List.map_cons, List.zip_cons_cons] at ih ⊢
    exact congrArg₂ List.cons rfl ih

/-! ## Claims -/

/-- C1 (counterexample): on empty `interviewData` the JavaScript division
`0/0` evaluates to `NaN` without throwing, so the catch clause is not taken
and `generatePerformanceReport` does NOT return the fixed fallback report —
at this concrete input the returned `overallScore` is `NaN` (`none`), not
70. -/
theorem c1_counterexample :
    (generatePerformanceReport "Engineer" "job description" [] 0 0 0 false).overallScore ≠ some 70 := by
  have h : (generatePerformanceReport "Engineer" "job description" [] 0 0 0 false).overallScore = none := rfl
  rw [h]
  exact fun hc => Option.noConfusion hc

/-- C1 (amended): for empty `interviewData`, `generatePerformanceReport`
does not raise, but it takes the normal path (JavaScript `0/0` is `NaN`, not
an exception), returning a report whose overall and category scores are all
`NaN` (`none`) and whose `questionAnalysis` is empty — not the fallback
report with `overallScore = 70`. -/
theorem c1_amended_empty_input (jobTitle jobDescription : String) (r1 r2 r3 : ℚ) :
    (generatePerformanceReport jobTitle jobDescription [] r1 r2 r3 false).overallScore = none ∧
    (generatePerformanceReport jobTitle jobDescription [] r1 r2 r3 false).technicalScore = none ∧
    (generatePerformanceReport jobTitle jobDescription [] r1 r2 r3 false).communicationScore = none ∧
    (generatePerformanceReport jobTitle jobDescription [] r1 r2 r3 false).problemSolvingScore = none ∧
    (generatePerformanceReport jobTitle jobDescription [] r1 r2 r3 false).questionAnalysis = [] ∧
    (generatePerformanceReport jobTitle jobDescription [] r1 r2 r3 false).overallScore ≠
      (generateFallbackReport []).overallScore := by
  refine ⟨rfl, rfl, rfl, rfl, rfl, ?_⟩
  intro hc
  exact Option.noConfusion ((rfl : (generatePerformanceReport jobTitle jobDescription [] r1 r2 r3 false).overallScore = none) ▸ hc)

/-- C2: each exported engine operation returns a value for every input and
never propagates an exception: the result is either the try-block body's
value or, when any internal fault occurs, exactly the documented fallback
(default question list, fixed feedback/question pair, fallback report). -/
theorem c2_absorbs_faults (jobTitle jobDescription currentQuestion candidateAnswer : String)
    (previousQuestions : List String) (numQuestions rFk rFt rQk rQt : Nat)
    (shuffle : List String → List String) (interviewData : List InterviewItem)
    (r1 r2 r3 : ℚ) (fault : Bool) :
    (generateInterviewQuestions jobTitle jobDescription numQuestions shuffle fault =
        generateQuestionsFromKeywords jobTitle (extractKeywords (jsToLower jobDescription)) numQuestions shuffle ∨
      generateInterviewQuestions jobTitle jobDescription numQuestions shuffle fault =
        getDefaultQuestions jobTitle) ∧
    (generateNextQuestion jobDescription currentQuestion candidateAnswer previousQuestions rFk rFt rQk rQt fault =
        generateNextQuestionBody jobDescription currentQuestion candidateAnswer previousQuestions rFk rFt rQk rQt ∨
      generateNextQuestion jobDescription currentQuestion candidateAnswer previousQuestions rFk rFt rQk rQt fault =
        nextQuestionFallback) ∧
    (generatePerformanceReport jobTitle jobDescription interviewData r1 r2 r3 fault =
        generatePerformanceReportBody jobTitle jobDescription interviewData r1 r2 r3 ∨
      generatePerformanceReport jobTitle jobDescription interviewData r1 r2 r3 fault =
        generateFallbackReport interviewData) := by
  cases fault <;>
    simp [generateInterviewQuestions, generateNextQuestion, generatePerformanceReport]

/-- C9: replacing each entry's feedback field with the feedback string from
the report's own `questionAnalysis` and re-running `generatePerformanceReport`
(with fresh random draws) yields the same `overallScore`: per-answer scoring
reads only the question and answer fields. -/
theorem c9_round_trip (jobTitle jobDescription : String) (data : List InterviewItem)
    (r1 r2 r3 s1 s2 s3 : ℚ) (hne : data ≠ []) :
    (generatePerformanceReport jobTitle jobDescription
        (withFeedback data (generatePerformanceReport jobTitle jobDescription data r1 r2 r3 false).questionAnalysis)
        s1 s2 s3 false).overallScore =
      (generatePerformanceReport jobTitle jobDescription data r1 r2 r3 false).overallScore := by
  simp only [generatePerformanceReport, generatePerformanceReportBody, calculateScores,
    Bool.false_eq_true, if_false]
  rw [analyzeAnswers_roundTrip]

/-- C9 witness at a concrete one-entry interview. -/
theorem c9_round_trip_witness :
    (generatePerformanceReport "T" "D"
        (withFeedback [⟨"Q", "A", none⟩]
          (generatePerformanceReport "T" "D" [⟨"Q", "A", none⟩] 0 0 0 false).questionAnalysis)
        0 0 0 false).overallScore =
      (generatePerformanceReport "T" "D" [⟨"Q", "A", none⟩] 0 0 0 false).overallScore :=
  c9_round_trip "T" "D" [⟨"Q", "A", none⟩] 0 0 0 0 0 0 (by decide)

set_option maxHeartbeats 1000000 in
/-- C3: the per-answer score equals base 70 plus exactly one keyword-mention
bracket (+15 for more than 3 mentions, +10 for 2 or 3, +5 for exactly 1,
+0 for none) plus exactly one word-count bracket (+10 above 150 words,
+5 for 101–150, −15 below 20, −5 for 20–49, +0 for 50–100), clamped to
[0, 100]; consequently the score always lies in [0, 100]. -/
theorem c3_per_answer_score (jobKeywords : List String) (q a : String) (fb : Option String) :
    (analyzeAnswer jobKeywords ⟨q, a, fb⟩).score =
      max 0 (min 100 (70 +
        (if 3 < keywordMentions jobKeywords (jsToLower a) then (15 : Int)
         else if 2 ≤ keywordMentions jobKeywords (jsToLower a) ∧
             keywordMentions jobKeywords (jsToLower a) ≤ 3 then 10
         else if keywordMentions jobKeywords (jsToLower a) = 1 then 5
         else 0) +
        (if 150 < jsSplitWsCount (jsToLower a) then (10 : Int)
         else if 100 < jsSplitWsCount (jsToLower a) ∧
             jsSplitWsCount (jsToLower a) ≤ 150 then 5
         else if jsSplitWsCount (jsToLower a) < 20 then -15
         else if 20 ≤ jsSplitWsCount (jsToLower a) ∧
             jsSplitWsCount (jsToLower a) < 50 then -5
         else 0))) ∧
    0 ≤ (analyzeAnswer jobKeywords ⟨q, a, fb⟩).score ∧
    (analyzeAnswer jobKeywords ⟨q, a, fb⟩).score ≤ 100 := by
  simp only [analyzeAnswer]
  generalize keywordMentions jobKeywords (jsToLower a) = m
  generalize jsSplitWsCount (jsToLower a) = w
  refine ⟨?_, ?_, ?_⟩ <;> split_ifs <;> omega

/-- C10 (implicit): the per-answer score always lies in [55, 95] — the
extreme adjustments are −15 and +25 from base 70, so the clamp bounds 0 and
100 are never reached. -/
theorem c10_score_in_55_95 (jobKeywords : List String) (q a : String) (fb : Option String) :
    55 ≤ (analyzeAnswer jobKeywords ⟨q, a, fb⟩).score ∧
    (analyzeAnswer jobKeywords ⟨q, a, fb⟩).score ≤ 95 := by
  simp only [analyzeAnswer]
  constructor <;> split_ifs <;> omega

/-- C4: for keyword sets of non-empty strings, the empty answer scores
70 − 15 = 55 (its whitespace-split word count is 1 and no keyword matches)
with the tier-4 feedback string, since 55 < 60. -/
theorem c4_empty_answer (ks : List String) (q : String) (fb : Option String)
    (h : ∀ k ∈ ks, k ≠ "") :
    analyzeAnswer ks ⟨q, "", fb⟩ =
      ⟨q, 55, "Answer needs improvement - provide more details and specific examples."⟩ := by
  have hm : keywordMentions ks (jsToLower "") = 0 := by
    unfold keywordMentions
    have hnil : ks.filter (fun keyword => jsIncludes (jsToLower "") keyword) = [] := by
      apply List.filter_eq_nil_iff.mpr
      intro k hk
      have hne : k.data ≠ [] := by
        intro hd
        exact h k hk (by cases k; simp_all)
      simp only [jsIncludes, decide_eq_true_eq]
      intro hinf
      exact hne (List.infix_nil.mp hinf)
    rw [hnil]
    rfl
  have hw : jsSplitWsCount (jsToLower "") = 1 := rfl
  simp only [analyzeAnswer, hm, hw]
  norm_num

/-- C4 witness: the empty answer against the concrete keyword set
`["javascript"]`. -/
theorem c4_empty_answer_witness :
    analyzeAnswer ["javascript"] ⟨"Q", "", none⟩ =
      ⟨"Q", 55, "Answer needs improvement - provide more details and specific examples."⟩ :=
  c4_empty_answer ["javascript"] "Q" none (by decide)

/-- C5: `extractKeywords` always returns at least 3 keywords, and when fewer
than 3 vocabulary terms match, the result is the matches followed by the 4
generic fallback terms, giving length at least 4. -/
theorem c5_extract_keywords_length (description : String) :
    3 ≤ (extractKeywords description).length ∧
    ((commonKeywords.filter (fun keyword => jsIncludes description keyword)).length < 3 →
      extractKeywords description =
        commonKeywords.filter (fun keyword => jsIncludes description keyword) ++
          ["experience", "skills", "projects", "challenges"] ∧
      4 ≤ (extractKeywords description).length) := by
  simp only [extractKeywords]
  by_cases h : (commonKeywords.filter (fun keyword => jsIncludes description keyword)).length < 3
  · rw [if_pos h]
    refine ⟨?_, fun _ => ⟨rfl, ?_⟩⟩ <;>
      simp only [List.length_append, List.length_cons, List.length_nil] <;> omega
  · rw [if_neg h]
    exact ⟨by omega, fun hc => absurd hc h⟩

/-- C5 witness: the empty description has no vocabulary matches, so the
result is exactly the 4 generic fallback terms. -/
theorem c5_extract_keywords_length_witness :
    extractKeywords "" =
      commonKeywords.filter (fun keyword => jsIncludes "" keyword) ++
        ["experience", "skills", "projects", "challenges"] ∧
    4 ≤ (extractKeywords "").length :=
  (c5_extract_keywords_length "").2 (by decide)

/-- C6: keyword matching is substring containment, not word-boundary
tokenization — any description containing the substring `javascript` yields
both `javascript` and `java` among the extracted keywords. -/
theorem c6_substring_containment (description : String)
    (h : jsIncludes description "javascript" = true) :
    "javascript" ∈ extractKeywords description ∧ "java" ∈ extractKeywords description := by
  have hjs : ("javascript" : String).data <:+: description.data := of_decide_eq_true h
  have hcontain : ("java" : String).data <:+: ("javascript" : String).data := by decide
  have hj : jsIncludes description "java" = true :=
    decide_eq_true (hcontain.trans hjs)
  have m1 : "javascript" ∈ commonKeywords.filter (fun keyword => jsIncludes description keyword) :=
    List.mem_filter.mpr ⟨by decide, h⟩
  have m2 : "java" ∈ commonKeywords.filter (fun keyword => jsIncludes description keyword) :=
    List.mem_filter.mpr ⟨by decide, hj⟩
  simp only [extractKeywords]
  split_ifs with hlen
  · exact ⟨List.mem_append_left _ m1, List.mem_append_left _ m2⟩
  · exact ⟨m1, m2⟩

/-- C6 witness at a concrete description containing `javascript`. -/
theorem c6_substring_containment_witness :
    "javascript" ∈ extractKeywords "senior javascript developer" ∧
    "java" ∈ extractKeywords "senior javascript developer" :=
  c6_substring_containment "senior javascript developer" (by decide)

/-- C7: for a non-empty keyword list, requesting 5 questions returns exactly
5 strings, each drawn from the union of the three instantiated pools
(technical templates over the keywords, the fixed behavioral prompts, the
role-specific templates over the job title), for every permutation-valued
shuffle. -/
theorem c7_generate_questions (jobTitle : String) (keywords : List String)
    (shuffle : List String → List String)
    (hs : ∀ l, (shuffle l).Perm l) (hk : keywords ≠ []) :
    (generateQuestionsFromKeywords jobTitle keywords 5 shuffle).length = 5 ∧
    ∀ q ∈ generateQuestionsFromKeywords jobTitle keywords 5 shuffle,
      (∃ kw ∈ keywords, ∃ t ∈ technicalQuestionTemplates, q = t kw) ∨
      q ∈ behavioralQuestionTemplates ∨ q ∈ roleSpecificQuestions jobTitle := by
  have key : ∀ all : List String, 5 ≤ all.length →
      ((shuffle all).take 5).length = 5 ∧ ∀ q ∈ (shuffle all).take 5, q ∈ all := by
    intro all h5
    have hlen : (shuffle all).length = all.length := (hs all).length_eq
    constructor
    · rw [List.length_take, hlen]
      omega
    · intro q hq
      exact (hs all).mem_iff.mp (List.take_subset _ _ hq)
  have hge : 5 ≤ (keywords.flatMap (fun keyword =>
      technicalQuestionTemplates.map (fun template => template keyword)) ++
      behavioralQuestionTemplates ++ roleSpecificQuestions jobTitle).length := by
    simp only [List.length_append]
    have h10 : behavioralQuestionTemplates.length = 10 := by decide
    have h5 : (roleSpecificQuestions jobTitle).length = 5 := by
      simp [roleSpecificQuestions]
    rw [h10, h5]
    exact Nat.le_add_left 5 _
  obtain ⟨hL, hM⟩ := key _ hge
  refine ⟨hL, ?_⟩
  intro q hq
  have hmem := hM q hq
  rcases List.mem_append.mp hmem with hmem2 | hrole
  · rcases List.mem_append.mp hmem2 with htech | hbehav
    · left
      obtain ⟨kw, hkw, hq2⟩ := List.mem_flatMap.mp htech
      obtain ⟨t, ht, hqt⟩ := List.mem_map.mp hq2
      exact ⟨kw, hkw, t, ht, hqt.symm⟩
    · exact Or.inr (Or.inl hbehav)
  · exact Or.inr (Or.inr hrole)

/-- C7 witness: the identity shuffle, one keyword, job title Backend
Engineer. -/
theorem c7_generate_questions_witness :
    (generateQuestionsFromKeywords "Backend Engineer" ["javascript"] 5 id).length = 5 ∧
    ∀ q ∈ generateQuestionsFromKeywords "Backend Engineer" ["javascript"] 5 id,
      (∃ kw ∈ ["javascript"], ∃ t ∈ technicalQuestionTemplates, q = t kw) ∨
      q ∈ behavioralQuestionTemplates ∨ q ∈ roleSpecificQuestions "Backend Engineer" :=
  c7_generate_questions "Backend Engineer" ["javascript"] id
    (fun l => List.Perm.refl l) (by decide)

/-- C8: on every input — fallback path included — the report's strengths,
improvements and recommendations each have length at least 3; the shared
padding loop appends, in order, exactly enough entries of the fixed generic
pool when the threshold rules yield fewer than 3. -/
theorem c8_report_list_lengths (jobTitle jobDescription : String)
    (interviewData : List InterviewItem) (r1 r2 r3 : ℚ) (fault : Bool) :
    (3 ≤ (generatePerformanceReport jobTitle jobDescription interviewData r1 r2 r3 fault).strengths.length ∧
     3 ≤ (generatePerformanceReport jobTitle jobDescription interviewData r1 r2 r3 fault).improvements.length ∧
     3 ≤ (generatePerformanceReport jobTitle jobDescription interviewData r1 r2 r3 fault).recommendations.length) ∧
    ∀ acc pool : List String, padTo3 acc pool = acc ++ pool.take (3 - acc.length) := by
  constructor
  · cases fault
    · simp only [generatePerformanceReport, Bool.false_eq_true, if_false,
        generatePerformanceReportBody, identifyStrengths, identifyImprovements,
        generateRecommendations]
      refine ⟨padTo3_length _ _ (by decide), padTo3_length _ _ (by decide),
        padTo3_length _ _ (by decide)⟩
    · simp [generatePerformanceReport, generateFallbackReport]
  · exact fun acc pool => padTo3_eq pool acc
